import Mathlib

/-!
Shallow embedding of the winsafe sources under verification:

* `src/com/dshow/imediaseeking.rs` — the `IMediaSeeking` COM wrapper;
* `src/shell/com_interfaces/ifilesavedialog.rs` — the `IFileSaveDialog` COM wrapper;
* `src/user/handles/hdwp.rs` — the `HDWP` handle and its RAII guard;
* `src/com/shell/co.rs` — shell constants (`DROPEFFECT`, `FOS`, `SFGAO`, …);
* `src/gui/native_controls/radio_button.rs` — the `RadioButton` control;
* `src/gui/dialog_main.rs` — the `DialogMain` window.

COM virtual tables are embedded as Lean structures whose entries are pure
functions: an out-pointer parameter of a C entry point becomes a returned
component (the value the entry point left in the pointed-to buffer when it
returned), and the `HRESULT` it returns becomes the first component.
Machine integers are embedded as `Int` (signed, e.g. `i64`, the FFI
`HRESULT` of the dshow file which is `i32`) or `Nat` (unsigned, e.g. `u32`,
pointers); the `as u32` cast of an `i32` is taken explicitly modulo `2^32`.
A few private helpers of the crate are not among the given sources; each is
modelled from the spec and marked so in its doc comment.
-/

/-- Bit pattern of an `i32` value reinterpreted as `u32` (the Rust `as _`
cast applied to an FFI `HRESULT` in the dshow file). -/
def u32bits (hr : Int) : Nat := (hr % 4294967296).toNat

/-- The `co::ERROR` newtype over `u32` (Windows error codes / `HRESULT`s
seen through the `co::ERROR(hr as _)` conversion). -/
structure ERROR where
  val : Nat
deriving DecidableEq, Repr

/-- `co::ERROR::S_OK` (the OS value 0). -/
def ERROR.S_OK : ERROR := ⟨0⟩

/-- `co::ERROR::S_FALSE` (the OS value 1). -/
def ERROR.S_FALSE : ERROR := ⟨1⟩

/-- `WinResult<T> = Result<T, co::ERROR>`. -/
def WinResult (α : Type) : Type := Except ERROR α

/-- Decidable equality of `Except` results, for evaluating the wrappers on
concrete inputs. -/
def Except.decEq {ε α : Type} [DecidableEq ε] [DecidableEq α] :
    (a b : Except ε α) → Decidable (a = b)
  | Except.ok x, Except.ok y =>
    if h : x = y then isTrue (by rw [h])
    else isFalse (fun hc => h (Except.ok.inj hc))
  | Except.ok _, Except.error _ => isFalse (fun hc => Except.noConfusion hc)
  | Except.error _, Except.ok _ => isFalse (fun hc => Except.noConfusion hc)
  | Except.error e, Except.error f =>
    if h : e = f then isTrue (by rw [h])
    else isFalse (fun hc => h (Except.error.inj hc))

instance {ε α : Type} [DecidableEq ε] [DecidableEq α] :
    DecidableEq (Except ε α) := Except.decEq

instance (α : Type) [DecidableEq α] : DecidableEq (WinResult α) :=
  inferInstanceAs (DecidableEq (Except ERROR α))

/-- Modelled from the spec: `hr_to_winresult` (in the crate's `com`
helpers, not among the given sources) translates an FFI `HRESULT` into a
typed result — `Ok(())` when the code is the success code `S_OK`, and
`Err` carrying the code converted to the typed `co::ERROR` otherwise. -/
def hr_to_winresult (hr : Int) : WinResult Unit :=
  if ERROR.mk (u32bits hr) = ERROR.S_OK then Except.ok ()
  else Except.error (ERROR.mk (u32bits hr))

/-- The winsafe `GUID` struct: fields `data1 : u32`, `data2 : u16`,
`data3 : u16`, `data4 : u64` (in declaration = memory order). -/
structure GUID where
  data1 : Nat
  data2 : Nat
  data3 : Nat
  data4 : Nat
deriving DecidableEq, Repr

/-- Effect on a `GUID` of storing an `i64` through a `*mut GUID` cast to
`*mut i64` (as `IMediaSeeking::GetTimeFormat` does): on the little-endian
target the 8 stored bytes overwrite `data1`, `data2` and `data3`. -/
def GUID.writeFirstI64 (g : GUID) (v : Int) : GUID :=
  let b := (v % 18446744073709551616).toNat
  { g with
      data1 := b % 4294967296
      data2 := b / 4294967296 % 65536
      data3 := b / 281474976710656 % 65536 }

/-- Modelled from the spec: `guid::TIME_FORMAT_NONE` (in the crate's dshow
`guid` module, not among the given sources), the all-zero
`TIME_FORMAT_NONE` GUID used as the initial buffer value in
`GetTimeFormat`. -/
def guid.TIME_FORMAT_NONE : GUID := ⟨0, 0, 0, 0⟩

/-- Opaque carrier for `f64` values: the wrappers only pass them through,
never compute with them, so only the identity of the value matters. -/
structure F64 where
  bits : Nat
deriving DecidableEq, Repr

/-- The `IMediaSeekingVT` virtual table of `imediaseeking.rs`, with each
entry point embedded as a pure function: out-pointer parameters become
returned components (placed after the returned `HRESULT`), in-pointer
parameters become arguments of the pointed-to type. -/
structure IMediaSeekingVT where
  GetCapabilities : Int × Nat
  CheckCapabilities : Nat → Int × Nat
  IsFormatSupported : GUID → Int
  QueryPreferredFormat : Int × GUID
  GetTimeFormat : Int × GUID
  IsUsingTimeFormat : GUID → Int
  SetTimeFormat : GUID → Int
  GetDuration : Int × Int
  GetStopPosition : Int × Int
  GetCurrentPosition : Int × Int
  ConvertTimeFormat : GUID → Int → GUID → Int × Int
  SetPositions : Int → Nat → Int → Nat → Int × Int × Int
  GetPositions : Int × Int × Int
  GetAvailable : Int × Int × Int
  SetRate : F64 → Int
  GetRate : Int × F64
  GetPreroll : Int × Int

/-- `IMediaSeeking::ConvertTimeFormat`: invokes the `ConvertTimeFormat`
entry, maps success to the value written through the `target` pointer. -/
def IMediaSeeking.ConvertTimeFormat (vt : IMediaSeekingVT)
    (targetFormat : GUID) (source : Int) (sourceFormat : GUID) :
    WinResult Int :=
  let r := vt.ConvertTimeFormat targetFormat source sourceFormat
  (hr_to_winresult r.1).map (fun _ => r.2)

/-- `IMediaSeeking::GetAvailable`: the source body invokes the
`GetPositions` virtual-table entry (not the `GetAvailable` entry) with the
`early`/`late` buffers. -/
def IMediaSeeking.GetAvailable (vt : IMediaSeekingVT) :
    WinResult (Int × Int) :=
  let r := vt.GetPositions
  (hr_to_winresult r.1).map (fun _ => (r.2.1, r.2.2))

/-- `IMediaSeeking::GetCurrentPosition`. -/
def IMediaSeeking.GetCurrentPosition (vt : IMediaSeekingVT) :
    WinResult Int :=
  let r := vt.GetCurrentPosition
  (hr_to_winresult r.1).map (fun _ => r.2)

/-- `IMediaSeeking::GetDuration`. -/
def IMediaSeeking.GetDuration (vt : IMediaSeekingVT) : WinResult Int :=
  let r := vt.GetDuration
  (hr_to_winresult r.1).map (fun _ => r.2)

/-- `IMediaSeeking::GetPositions`. -/
def IMediaSeeking.GetPositions (vt : IMediaSeekingVT) :
    WinResult (Int × Int) :=
  let r := vt.GetPositions
  (hr_to_winresult r.1).map (fun _ => (r.2.1, r.2.2))

/-- `IMediaSeeking::GetPreroll`. -/
def IMediaSeeking.GetPreroll (vt : IMediaSeekingVT) : WinResult Int :=
  let r := vt.GetPreroll
  (hr_to_winresult r.1).map (fun _ => r.2)

/-- `IMediaSeeking::GetRate`. -/
def IMediaSeeking.GetRate (vt : IMediaSeekingVT) : WinResult F64 :=
  let r := vt.GetRate
  (hr_to_winresult r.1).map (fun _ => r.2)

/-- `IMediaSeeking::GetStopPosition`. -/
def IMediaSeeking.GetStopPosition (vt : IMediaSeekingVT) : WinResult Int :=
  let r := vt.GetStopPosition
  (hr_to_winresult r.1).map (fun _ => r.2)

/-- `IMediaSeeking::GetTimeFormat`: the source body invokes the
`GetStopPosition` virtual-table entry (not the `GetTimeFormat` entry),
passing `&mut timeGuid` cast to the entry's `*mut i64` parameter. -/
def IMediaSeeking.GetTimeFormat (vt : IMediaSeekingVT) : WinResult GUID :=
  let timeGuid := guid.TIME_FORMAT_NONE
  let r := vt.GetStopPosition
  let timeGuid := timeGuid.writeFirstI64 r.2
  (hr_to_winresult r.1).map (fun _ => timeGuid)

/-- `IMediaSeeking::SetPositions`: matches `co::ERROR(hr as _)` against
`S_OK | S_FALSE`, every other code is returned as the error. The entry's
write-backs through the `current`/`stop` pointers are discarded. -/
def IMediaSeeking.SetPositions (vt : IMediaSeekingVT)
    (current : Int) (currentFlags : Nat) (stop : Int) (stopFlags : Nat) :
    WinResult Unit :=
  match ERROR.mk
      (u32bits (vt.SetPositions current currentFlags stop stopFlags).1) with
  | err =>
    if err = ERROR.S_OK ∨ err = ERROR.S_FALSE then Except.ok ()
    else Except.error err

/-- `IMediaSeeking::SetRate`. -/
def IMediaSeeking.SetRate (vt : IMediaSeekingVT) (rate : F64) :
    WinResult Unit :=
  hr_to_winresult (vt.SetRate rate)

/-- `IMediaSeeking::SetTimeFormat`. -/
def IMediaSeeking.SetTimeFormat (vt : IMediaSeekingVT) (format : GUID) :
    WinResult Unit :=
  hr_to_winresult (vt.SetTimeFormat format)

/-!
Shell constants of `src/com/shell/co.rs`. `const_ordinary!` declares a
newtype over `u32` with the listed named constants; each constant is
embedded as a `Nat`.
-/

/-- `co::DROPEFFECT::NONE`. -/
def DROPEFFECT.NONE : Nat := 0

/-- `co::DROPEFFECT::COPY`. -/
def DROPEFFECT.COPY : Nat := 1

/-- `co::DROPEFFECT::MOVE`. -/
def DROPEFFECT.MOVE : Nat := 2

/-- `co::DROPEFFECT::LINK`. -/
def DROPEFFECT.LINK : Nat := 4

/-- `co::DROPEFFECT::SCROLL`. -/
def DROPEFFECT.SCROLL : Nat := 0x80000000

/-- `co::SFGAO::CANCOPY`, declared in the source as `DROPEFFECT::COPY.0`. -/
def SFGAO.CANCOPY : Nat := DROPEFFECT.COPY

/-- `co::SFGAO::CANMOVE`, declared as `DROPEFFECT::MOVE.0`. -/
def SFGAO.CANMOVE : Nat := DROPEFFECT.MOVE

/-- `co::SFGAO::CANLINK`, declared as `DROPEFFECT::LINK.0`. -/
def SFGAO.CANLINK : Nat := DROPEFFECT.LINK

/-- `co::SFGAO::STORAGE`. -/
def SFGAO.STORAGE : Nat := 0x00000008

/-- `co::SFGAO::CANRENAME`. -/
def SFGAO.CANRENAME : Nat := 0x00000010

/-- `co::SFGAO::CANDELETE`. -/
def SFGAO.CANDELETE : Nat := 0x00000020

/-- `co::SFGAO::HASPROPSHEET`. -/
def SFGAO.HASPROPSHEET : Nat := 0x00000040

/-- `co::SFGAO::DROPTARGET`. -/
def SFGAO.DROPTARGET : Nat := 0x00000100

/-- `co::SFGAO::CAPABILITYMASK`. -/
def SFGAO.CAPABILITYMASK : Nat := 0x00000177

/-- The named `co::FOS` file-dialog option constants, in source order. -/
def FOS.OVERWRITEPROMPT : Nat := 0x2

/-- `co::FOS::STRICTFILETYPES`. -/
def FOS.STRICTFILETYPES : Nat := 0x4

/-- `co::FOS::NOCHANGEDIR`. -/
def FOS.NOCHANGEDIR : Nat := 0x8

/-- `co::FOS::PICKFOLDERS`. -/
def FOS.PICKFOLDERS : Nat := 0x20

/-- `co::FOS::FORCEFILESYSTEM`. -/
def FOS.FORCEFILESYSTEM : Nat := 0x40

/-- `co::FOS::ALLNONSTORAGEITEMS`. -/
def FOS.ALLNONSTORAGEITEMS : Nat := 0x80

/-- `co::FOS::NOVALIDATE`. -/
def FOS.NOVALIDATE : Nat := 0x100

/-- `co::FOS::ALLOWMULTISELECT`. -/
def FOS.ALLOWMULTISELECT : Nat := 0x200

/-- `co::FOS::PATHMUSTEXIST`. -/
def FOS.PATHMUSTEXIST : Nat := 0x800

/-- `co::FOS::FILEMUSTEXIST`. -/
def FOS.FILEMUSTEXIST : Nat := 0x1000

/-- `co::FOS::CREATEPROMPT`. -/
def FOS.CREATEPROMPT : Nat := 0x2000

/-- `co::FOS::SHAREAWARE`. -/
def FOS.SHAREAWARE : Nat := 0x4000

/-- `co::FOS::NOREADONLYRETURN`. -/
def FOS.NOREADONLYRETURN : Nat := 0x8000

/-- `co::FOS::NOTESTFILECREATE`. -/
def FOS.NOTESTFILECREATE : Nat := 0x10000

/-- `co::FOS::HIDEMRUPLACES`. -/
def FOS.HIDEMRUPLACES : Nat := 0x20000

/-- `co::FOS::HIDEPINNEDPLACES`. -/
def FOS.HIDEPINNEDPLACES : Nat := 0x40000

/-- `co::FOS::NODEREFERENCELINKS`. -/
def FOS.NODEREFERENCELINKS : Nat := 0x100000

/-- `co::FOS::OKBUTTONNEEDSINTERACTION`. -/
def FOS.OKBUTTONNEEDSINTERACTION : Nat := 0x200000

/-- `co::FOS::DONTADDTORECENT`. -/
def FOS.DONTADDTORECENT : Nat := 0x2000000

/-- `co::FOS::FORCESHOWHIDDEN`. -/
def FOS.FORCESHOWHIDDEN : Nat := 0x10000000

/-- `co::FOS::DEFAULTNOMINIMODE`. -/
def FOS.DEFAULTNOMINIMODE : Nat := 0x20000000

/-- `co::FOS::FORCEPREVIEWPANEON`. -/
def FOS.FORCEPREVIEWPANEON : Nat := 0x40000000

/-- `co::FOS::SUPPORTSTREAMABLEITEMS`. -/
def FOS.SUPPORTSTREAMABLEITEMS : Nat := 0x80000000

/-- All named `co::FOS` constants, from `OVERWRITEPROMPT` through
`SUPPORTSTREAMABLEITEMS`, in source order. -/
def FOS.all : List Nat :=
  [FOS.OVERWRITEPROMPT, FOS.STRICTFILETYPES, FOS.NOCHANGEDIR,
   FOS.PICKFOLDERS, FOS.FORCEFILESYSTEM, FOS.ALLNONSTORAGEITEMS,
   FOS.NOVALIDATE, FOS.ALLOWMULTISELECT, FOS.PATHMUSTEXIST,
   FOS.FILEMUSTEXIST, FOS.CREATEPROMPT, FOS.SHAREAWARE,
   FOS.NOREADONLYRETURN, FOS.NOTESTFILECREATE, FOS.HIDEMRUPLACES,
   FOS.HIDEPINNEDPLACES, FOS.NODEREFERENCELINKS,
   FOS.OKBUTTONNEEDSINTERACTION, FOS.DONTADDTORECENT,
   FOS.FORCESHOWHIDDEN, FOS.DEFAULTNOMINIMODE, FOS.FORCEPREVIEWPANEON,
   FOS.SUPPORTSTREAMABLEITEMS]

/-!
Embedding of `src/user/handles/hdwp.rs`. Pointers are embedded as `Nat`,
with 0 the null pointer; the `user::ffi` entry points the file calls are a
structure of oracles, so every theorem quantifies over the OS behaviour.
-/

/-- The `HDWP` handle newtype declared by `impl_handle!`. -/
structure HDWP where
  ptr : Nat
deriving DecidableEq, Repr

/-- Modelled from the spec: `Handle::NULL` of the `Handle` trait
(`kernel`, not among the given sources) — the null handle. -/
def HDWP.NULL : HDWP := ⟨0⟩

/-- Modelled from the spec: `Handle::INVALID` of the `Handle` trait
(`kernel`, not among the given sources) — the all-ones invalid handle
value (`INVALID_HANDLE_VALUE`, i.e. `-1` as a 64-bit pointer). -/
def HDWP.INVALID : HDWP := ⟨18446744073709551615⟩

/-- The `HdwpGuard` declared by `handle_guard!`: wraps the `HDWP`. -/
structure HdwpGuard where
  handle : HDWP
deriving DecidableEq, Repr

/-- `POINT` (two `i32` coordinates). -/
structure POINT where
  x : Int
  y : Int
deriving DecidableEq, Repr

/-- `SIZE` (two `i32` extents). -/
structure SIZE where
  cx : Int
  cy : Int
deriving DecidableEq, Repr

/-- The `user::ffi` entry points used by `hdwp.rs`, as oracles:
`BeginDeferWindowPos`/`DeferWindowPos` return a raw pointer (0 = null),
`GetLastError` is the thread's last error code. -/
structure UserFfi where
  BeginDeferWindowPos : Nat → Nat
  DeferWindowPos : Nat → Nat → Nat → Int → Int → Int → Int → Nat → Nat
  GetLastError : ERROR

/-- `SysResult<T> = Result<T, co::ERROR>`. -/
def SysResult (α : Type) : Type := Except ERROR α

instance (α : Type) [DecidableEq α] : DecidableEq (SysResult α) :=
  inferInstanceAs (DecidableEq (Except ERROR α))

/-- `HDWP::BeginDeferWindowPos`: `Ok` with a guard over the returned
handle when the OS pointer is non-null (`as_mut()` is `Some`), otherwise
`Err(GetLastError())`. -/
def HDWP.BeginDeferWindowPos (ffi : UserFfi) (num_windows : Nat) :
    SysResult HdwpGuard :=
  let p := ffi.BeginDeferWindowPos num_windows
  if p = 0 then Except.error ffi.GetLastError
  else Except.ok ⟨⟨p⟩⟩

/-- `HDWP::DeferWindowPos`. `replace_handle_value` (`kernel::privs`, not
among the given sources) is modelled from the spec as overwriting the
stored handle value, embedded here as explicit state passing: the first
component of the result is the handle value stored in `self` after the
call. On a non-null OS pointer the stored handle becomes that pointer and
the result is `Ok(())`; on null it becomes `INVALID` (the source comments
"prevent EndDeferWindowPos()") and the result is `Err(GetLastError())`. -/
def HDWP.DeferWindowPos (ffi : UserFfi) (self : HDWP) (hwnd : Nat)
    (hwnd_insert_after : Nat) (top_left : POINT) (sz : SIZE)
    (flags : Nat) : HDWP × SysResult Unit :=
  let p := ffi.DeferWindowPos self.ptr hwnd hwnd_insert_after
    top_left.x top_left.y sz.cx sz.cy flags
  if p = 0 then (HDWP.INVALID, Except.error ffi.GetLastError)
  else (⟨p⟩, Except.ok ())

/-!
Embedding of `src/shell/com_interfaces/ifilesavedialog.rs`. `COMPTR` and
`HANDLE` are raw pointers (`Nat`), `HRES` is the `u32` FFI `HRESULT`.
-/

/-- The `co::HRESULT` newtype over the `u32` FFI code. -/
structure co.HRESULT where
  val : Nat
deriving DecidableEq, Repr

/-- `HrResult<T> = Result<T, co::HRESULT>`. -/
def HrResult (α : Type) : Type := Except co.HRESULT α

instance (α : Type) [DecidableEq α] : DecidableEq (HrResult α) :=
  inferInstanceAs (DecidableEq (Except co.HRESULT α))

/-- Modelled from the spec: `ok_to_hrresult` (`ole::privs`, not among the
given sources) translates an FFI `HRES` into a typed result — `Ok(())`
when the code is the success code `S_OK` (0), `Err` carrying the typed
`co::HRESULT` otherwise. -/
def ok_to_hrresult (hres : Nat) : HrResult Unit :=
  if hres = 0 then Except.ok () else Except.error ⟨hres⟩

/-- The `IFileSaveDialogVT` virtual table: the five entries the file
declares after the inherited `IFileDialogVT` prefix (whose layout is not
among the given sources and is unused by these claims). First argument of
every entry is the interface's own COM pointer. -/
structure IFileSaveDialogVT where
  SetSaveAsItem : Nat → Nat → Nat
  SetProperties : Nat → Nat → Nat
  SetCollectedProperties : Nat → Nat → Int → Nat
  GetProperties : Nat → Nat × Nat
  ApplyProperties : Nat → Nat → Nat → Nat → Nat → Nat

/-- The `IFileSaveDialog` COM wrapper declared by `com_interface!`: wraps
the COM pointer. -/
structure IFileSaveDialog where
  ptr : Nat
deriving DecidableEq, Repr

/-- `IFileSaveDialog::SetSaveAsItem`: invokes the `SetSaveAsItem` entry
with the dialog's own pointer and the item's pointer, translating the
returned `HRES` through `ok_to_hrresult`. -/
def IFileSaveDialog.SetSaveAsItem (vt : IFileSaveDialogVT)
    (self : IFileSaveDialog) (psi : Nat) : HrResult Unit :=
  ok_to_hrresult (vt.SetSaveAsItem self.ptr psi)

/-!
RAII release calls. Destruction of a wrapper is embedded as a function
from the wrapper's state to the list of OS release calls its `Drop`
implementation makes.
-/

/-- An OS release/cleanup call made by a destructor. -/
inductive OSCall where
  | EndDeferWindowPos (hdwp : HDWP)
  | Release (pp : Nat)
deriving DecidableEq, Repr

/-- Modelled from the spec: the `Drop` glue generated by `handle_guard!`
(not among the given sources). Per the spec's RAII-guard definition and
the guard's doc comment, destruction calls `EndDeferWindowPos` on the
wrapped handle; per the in-source comment on `DeferWindowPos`'s failure
path ("prevent EndDeferWindowPos()"), a handle replaced with `INVALID`
suppresses the cleanup call. -/
def HdwpGuard.drop (g : HdwpGuard) : List OSCall :=
  if g.handle = HDWP.INVALID then [] else [OSCall.EndDeferWindowPos g.handle]

/-- The `IMediaSeeking` COM wrapper struct of `imediaseeking.rs`: wraps
the `ppvt` COM pointer. -/
structure IMediaSeeking where
  ppvt : Nat
deriving DecidableEq, Repr

/-- Modelled from the spec: the `Drop` glue generated by `impl_IUnknown!`
(not among the given sources). Per the spec's RAII-guard definition and
the wrapper's doc comment, destruction calls `IUnknown::Release` on the
wrapped COM pointer. -/
def IMediaSeeking.drop (m : IMediaSeeking) : List OSCall :=
  [OSCall.Release m.ppvt]

/-- Modelled from the spec: the `Drop` glue generated by `com_interface!`
(not among the given sources). Per the spec's RAII-guard definition and
the wrapper's doc comment, destruction calls `IUnknown::Release` on the
wrapped COM pointer. -/
def IFileSaveDialog.drop (f : IFileSaveDialog) : List OSCall :=
  [OSCall.Release f.ptr]

/-!
Embedding of `src/gui/native_controls/radio_button.rs`. The control ID is
a `u16`, embedded as `Nat`. `NativeControlBase` (not among the given
sources) stores the `OptsId` passed to its constructor and `opts_id()`
returns it, so the control is embedded as the data it stores.
-/

/-- The `co::BS` button-style newtype over `u32`. -/
structure BS where
  val : Nat
deriving DecidableEq, Repr

/-- `co::BS::AUTORADIOBUTTON` (the OS value 9). -/
def BS.AUTORADIOBUTTON : BS := ⟨9⟩

/-- The `co::WS` window-style newtype over `u32`. -/
structure WS where
  val : Nat
deriving DecidableEq, Repr

/-- `co::WS::CHILD` (the OS value 0x40000000). -/
def WS.CHILD : WS := ⟨0x40000000⟩

/-- `co::WS::VISIBLE` (the OS value 0x10000000). -/
def WS.VISIBLE : WS := ⟨0x10000000⟩

/-- Bitwise `|` of two window styles. -/
def WS.union (a b : WS) : WS := ⟨a.val ||| b.val⟩

/-- The `co::WS_EX` extended-window-style newtype over `u32`. -/
structure WS_EX where
  val : Nat
deriving DecidableEq, Repr

/-- `co::WS_EX::LEFT` (the OS value 0). -/
def WS_EX.LEFT : WS_EX := ⟨0⟩

/-- The `RadioButtonOpts` struct, field for field. -/
structure RadioButtonOpts where
  text : String
  pos : POINT
  button_style : BS
  window_style : WS
  ex_window_style : WS_EX
  ctrl_id : Nat
deriving DecidableEq, Repr

/-- `RadioButtonOpts::default`. -/
def RadioButtonOpts.default : RadioButtonOpts :=
  { text := ""
    pos := ⟨0, 0⟩
    button_style := BS.AUTORADIOBUTTON
    window_style := WS.union WS.CHILD WS.VISIBLE
    ex_window_style := WS_EX.LEFT
    ctrl_id := 0 }

/-- `RadioButtonOpts::define_ctrl_id`. Modelled from the spec:
`auto_ctrl_id` (`gui::globals`, not among the given sources) returns a
fresh auto-generated control ID; it is embedded as the explicit argument
`auto`. A zero `ctrl_id` is replaced with `auto`, any other value is kept
and no other field is touched. -/
def RadioButtonOpts.define_ctrl_id (auto : Nat)
    (opts : RadioButtonOpts) : RadioButtonOpts :=
  if opts.ctrl_id = 0 then { opts with ctrl_id := auto } else opts

/-- The `OptsId` enum of `gui::native_controls::opts_id`, instantiated at
`RadioButtonOpts`: a control was created either programmatically (`Wnd`,
carrying its options) or from a dialog resource (`Dlg`, carrying its
control ID). -/
inductive OptsId where
  | Wnd (opts : RadioButtonOpts)
  | Dlg (ctrl_id : Nat)
deriving DecidableEq, Repr

/-- The `RadioButton` control, embedded as the data its base stores: the
control ID handed to `ButtonEvents::new` and the `OptsId`. -/
structure RadioButton where
  events_ctrl_id : Nat
  opts_id : OptsId
deriving DecidableEq, Repr

/-- `RadioButton::new`: runs the options through `define_ctrl_id` (with
the auto-generated ID as explicit argument) and stores them as
`OptsId::Wnd`. -/
def RadioButton.new (auto : Nat) (opts : RadioButtonOpts) : RadioButton :=
  let opts := RadioButtonOpts.define_ctrl_id auto opts
  ⟨opts.ctrl_id, OptsId.Wnd opts⟩

/-- `RadioButton::new_dlg`: stores the given ID as `OptsId::Dlg`. -/
def RadioButton.new_dlg (ctrl_id : Nat) : RadioButton :=
  ⟨ctrl_id, OptsId.Dlg ctrl_id⟩

/-- `RadioButton::ctrl_id`: reads the ID back from the stored `OptsId`. -/
def RadioButton.ctrl_id (r : RadioButton) : Nat :=
  match r.opts_id with
  | OptsId.Wnd opts => opts.ctrl_id
  | OptsId.Dlg ctrl_id => ctrl_id

/-!
Embedding of `src/gui/dialog_main.rs`. The effects a run performs on the
OS are a list of `GuiAction`s; the OS entry points the file calls are an
oracle structure `GuiOs`. The events collection (`gui::events::MsgEvents`,
not among the given sources) is modelled from the spec as storing, per
window message, the list of registered handlers; a handler is a function
from the dialog's window handle at message time to the actions it
performs.
-/

/-- The `co::SW` show-command newtype over `i32`. -/
structure SW where
  val : Nat
deriving DecidableEq, Repr

/-- `co::SW::SHOW` (the OS value `SW_SHOW` = 5). -/
def SW.SHOW : SW := ⟨5⟩

/-- The `co::ICON_SZ` newtype (`WM_SETICON` size argument). -/
structure ICON_SZ where
  val : Nat
deriving DecidableEq, Repr

/-- `co::ICON_SZ::SMALL` (the OS value `ICON_SMALL` = 0). -/
def ICON_SZ.SMALL : ICON_SZ := ⟨0⟩

/-- `co::ICON_SZ::BIG` (the OS value `ICON_BIG` = 1). -/
def ICON_SZ.BIG : ICON_SZ := ⟨1⟩

/-- An OS-visible action performed by the dialog code. -/
inductive GuiAction where
  | DestroyWindow (hwnd : Nat)
  | PostQuitMessage (exit_code : Int)
  | ShowWindow (hwnd : Nat) (cmd : SW)
  | SetIcon (hwnd : Nat) (hicon : Nat) (size : ICON_SZ)
deriving DecidableEq, Repr

/-- Modelled from the spec: the `MsgEvents` store (`gui::events`, not
among the given sources) keeps the handlers registered for each message;
only `WM_CLOSE` and `WM_NCDESTROY` are needed here. -/
structure MsgEvents where
  wm_close_handlers : List (Nat → List GuiAction)
  wm_nc_destroy_handlers : List (Nat → List GuiAction)

/-- The empty events store. -/
def MsgEvents.empty : MsgEvents := ⟨[], []⟩

/-- Modelled from the spec: `MsgEvents::wm_close` registers a `WM_CLOSE`
handler. -/
def MsgEvents.wm_close (e : MsgEvents) (f : Nat → List GuiAction) :
    MsgEvents :=
  { e with wm_close_handlers := e.wm_close_handlers ++ [f] }

/-- Modelled from the spec: `MsgEvents::wm_nc_destroy` registers a
`WM_NCDESTROY` handler. -/
def MsgEvents.wm_nc_destroy (e : MsgEvents) (f : Nat → List GuiAction) :
    MsgEvents :=
  { e with wm_nc_destroy_handlers := e.wm_nc_destroy_handlers ++ [f] }

/-- The `DialogMain` window, embedded as the data its `Obj` stores: the
dialog resource ID held by `DialogBase`, the events store, and the
optional icon / accelerator-table resource IDs. -/
structure DialogMain where
  dialog_id : Int
  events : MsgEvents
  icon_id : Option Int
  accel_table_id : Option Int

/-- `DialogMain::default_message_handlers`: registers a `WM_CLOSE` handler
that calls `DestroyWindow` on the dialog's window, and a `WM_NCDESTROY`
handler that calls `PostQuitMessage(0)`. -/
def DialogMain.default_message_handlers (d : DialogMain) : DialogMain :=
  let d := { d with
    events := d.events.wm_close (fun hwnd => [GuiAction.DestroyWindow hwnd]) }
  { d with
    events := d.events.wm_nc_destroy (fun _ => [GuiAction.PostQuitMessage 0]) }

/-- `DialogMain::new`: builds the `Obj` and installs the default message
handlers. -/
def DialogMain.new (dialog_id : Int)
    (icon_id accel_table_id : Option Int) : DialogMain :=
  DialogMain.default_message_handlers
    ⟨dialog_id, MsgEvents.empty, icon_id, accel_table_id⟩

/-- Actions performed when a `WM_CLOSE` message reaches the dialog whose
window handle is `hwnd`: every registered handler runs. -/
def DialogMain.handle_wm_close (d : DialogMain) (hwnd : Nat) :
    List GuiAction :=
  (d.events.wm_close_handlers.map (fun f => f hwnd)).flatten

/-- Actions performed when a `WM_NCDESTROY` message reaches the dialog. -/
def DialogMain.handle_wm_nc_destroy (d : DialogMain) (hwnd : Nat) :
    List GuiAction :=
  (d.events.wm_nc_destroy_handlers.map (fun f => f hwnd)).flatten

/-- The OS entry points `run_main` calls, as oracles:
`create_dialog_param` yields the created dialog's window handle,
`parent_hinstance` the module instance, `LoadAccelerators hinst id` /
`LoadImageIcon hinst id cx cy` the loaded resources, and
`run_loop hwnd haccel` the exit code of the message loop. -/
structure GuiOs where
  create_dialog_param : Except ERROR Nat
  parent_hinstance : Except ERROR Nat
  LoadAccelerators : Nat → Int → Except ERROR Nat
  LoadImageIcon : Nat → Int → Nat → Nat → Except ERROR Nat
  run_loop : Nat → Option Nat → Except ERROR Int

/-- `DialogMain::set_icon_if_any`: when an icon ID was given, loads the
16×16 and 32×32 icons and sends one `WM_SETICON` per size (in source
order: the small icon is set before the big one is loaded). Returns the
actions performed and the result. -/
def DialogMain.set_icon_if_any (os : GuiOs) (d : DialogMain)
    (hinst hwnd : Nat) : List GuiAction × Except ERROR Unit :=
  match d.icon_id with
  | none => ([], Except.ok ())
  | some id =>
    match os.LoadImageIcon hinst id 16 16 with
    | Except.error e => ([], Except.error e)
    | Except.ok icon16 =>
      match os.LoadImageIcon hinst id 32 32 with
      | Except.error e =>
        ([GuiAction.SetIcon hwnd icon16 ICON_SZ.SMALL], Except.error e)
      | Except.ok icon32 =>
        ([GuiAction.SetIcon hwnd icon16 ICON_SZ.SMALL,
          GuiAction.SetIcon hwnd icon32 ICON_SZ.BIG], Except.ok ())

/-- `DialogMain::run_main`: creates the dialog, loads the accelerator
table if one was requested, sets the icons if requested, shows the window
with `cmd_show` (defaulting to `SW::SHOW`), and enters the message loop.
Returns the actions performed and the result (an early `Err` aborts at
the point of failure). -/
def DialogMain.run_main (os : GuiOs) (d : DialogMain)
    (cmd_show : Option SW) : List GuiAction × Except ERROR Int :=
  match os.create_dialog_param with
  | Except.error e => ([], Except.error e)
  | Except.ok hwnd =>
    match os.parent_hinstance with
    | Except.error e => ([], Except.error e)
    | Except.ok hinst =>
      match (match d.accel_table_id with
             | none => Except.ok none
             | some id => (os.LoadAccelerators hinst id).map some) with
      | Except.error e => ([], Except.error e)
      | Except.ok haccel =>
        match DialogMain.set_icon_if_any os d hinst hwnd with
        | (tr, Except.error e) => (tr, Except.error e)
        | (tr, Except.ok ()) =>
          (tr ++ [GuiAction.ShowWindow hwnd (cmd_show.getD SW.SHOW)],
           os.run_loop hwnd haccel)

/-- A concrete virtual table distinguishing every entry point, used to
evaluate the wrappers: the identically-named entries and the actually
invoked entries return different codes and values. `GetStopPosition`
fails with `E_FAIL` (`0x80004005`, i.e. `-2147467259` as `i32`) while
`GetTimeFormat` succeeds. -/
def vtSample : IMediaSeekingVT where
  GetCapabilities := (0, 0)
  CheckCapabilities := fun n => (0, n)
  IsFormatSupported := fun _ => 0
  QueryPreferredFormat := (0, ⟨0, 0, 0, 0⟩)
  GetTimeFormat := (0, ⟨7, 8, 9, 10⟩)
  IsUsingTimeFormat := fun _ => 0
  SetTimeFormat := fun _ => 0
  GetDuration := (0, 555)
  GetStopPosition := (-2147467259, 999)
  GetCurrentPosition := (0, 666)
  ConvertTimeFormat := fun _ _ _ => (0, 0)
  SetPositions := fun _ _ _ _ => (0, 0, 0)
  GetPositions := (0, 333, 444)
  GetAvailable := (0, 111, 222)
  SetRate := fun _ => 0
  GetRate := (0, ⟨0⟩)
  GetPreroll := (0, 444)

/-- A concrete OS oracle on which every step of `run_main` succeeds, used
to evaluate the `DialogMain` embedding. -/
def guiOsSample : GuiOs where
  create_dialog_param := Except.ok 42
  parent_hinstance := Except.ok 7
  LoadAccelerators := fun _ _ => Except.ok 1
  LoadImageIcon := fun _ _ _ _ => Except.ok 2
  run_loop := fun _ _ => Except.ok 0

/-- Translation shape shared by every wrapper built on `hr_to_winresult`:
mapping a success to a carried value yields `Ok` of the value exactly on
the `S_OK` bit pattern, `Err` of the typed code otherwise. -/
theorem hr_to_winresult_map {α : Type} (hr : Int) (v : α) :
    (hr_to_winresult hr).map (fun _ => v) =
      if u32bits hr = 0 then Except.ok v
      else Except.error ⟨u32bits hr⟩ := by
  unfold hr_to_winresult
  by_cases h : u32bits hr = 0
  · simp [h, ERROR.S_OK, Except.map]
  · simp [h, ERROR.S_OK, Except.map]

/-- Claim C1: the spec says every `IMediaSeeking` wrapper forwards to the
identically-named virtual-table entry. `GetDuration` does; but on a table
whose entries are pairwise distinguishable, the `GetAvailable` wrapper
returns the values of the `GetPositions` entry (not those of the
`GetAvailable` entry), and the `GetTimeFormat` wrapper fails with the
`GetStopPosition` entry's `E_FAIL` even though the `GetTimeFormat` entry
succeeds — contradicting the wrappers' own doc comments. -/
theorem imediaseeking_getavailable_gettimeformat_wrong_entries :
    IMediaSeeking.GetAvailable vtSample = Except.ok (333, 444) ∧
    IMediaSeeking.GetAvailable vtSample ≠ Except.ok (111, 222) ∧
    vtSample.GetAvailable = (0, 111, 222) ∧
    IMediaSeeking.GetTimeFormat vtSample = Except.error ⟨2147500037⟩ ∧
    vtSample.GetTimeFormat.1 = 0 ∧
    IMediaSeeking.GetDuration vtSample = Except.ok 555 ∧
    vtSample.GetDuration = (0, 555) := by
  refine ⟨?_, ?_, rfl, ?_, rfl, ?_, rfl⟩ <;> decide

/-- Claim C2: each `IMediaSeeking` getter (`GetDuration`,
`GetCurrentPosition`, `GetStopPosition`, `GetPreroll`, `GetRate`,
`ConvertTimeFormat`) returns `Ok` of exactly the value the invoked entry
wrote through its out-pointer when the returned `HRESULT` is the success
code, and `Err` of the typed code otherwise; being an equality with a
two-branch `if`, no other outcome is possible. -/
theorem imediaseeking_getters_translate (vt : IMediaSeekingVT)
    (tf sf : GUID) (source : Int) :
    (IMediaSeeking.GetDuration vt =
      if u32bits vt.GetDuration.1 = 0 then Except.ok vt.GetDuration.2
      else Except.error ⟨u32bits vt.GetDuration.1⟩) ∧
    (IMediaSeeking.GetCurrentPosition vt =
      if u32bits vt.GetCurrentPosition.1 = 0 then
        Except.ok vt.GetCurrentPosition.2
      else Except.error ⟨u32bits vt.GetCurrentPosition.1⟩) ∧
    (IMediaSeeking.GetStopPosition vt =
      if u32bits vt.GetStopPosition.1 = 0 then
        Except.ok vt.GetStopPosition.2
      else Except.error ⟨u32bits vt.GetStopPosition.1⟩) ∧
    (IMediaSeeking.GetPreroll vt =
      if u32bits vt.GetPreroll.1 = 0 then Except.ok vt.GetPreroll.2
      else Except.error ⟨u32bits vt.GetPreroll.1⟩) ∧
    (IMediaSeeking.GetRate vt =
      if u32bits vt.GetRate.1 = 0 then Except.ok vt.GetRate.2
      else Except.error ⟨u32bits vt.GetRate.1⟩) ∧
    (IMediaSeeking.ConvertTimeFormat vt tf source sf =
      if u32bits (vt.ConvertTimeFormat tf source sf).1 = 0 then
        Except.ok (vt.ConvertTimeFormat tf source sf).2
      else Except.error ⟨u32bits (vt.ConvertTimeFormat tf source sf).1⟩) :=
  ⟨hr_to_winresult_map _ _, hr_to_winresult_map _ _,
   hr_to_winresult_map _ _, hr_to_winresult_map _ _,
   hr_to_winresult_map _ _, hr_to_winresult_map _ _⟩

/-- Claim C3: `IMediaSeeking::SetPositions` returns `Ok(())` exactly when
the entry's code converts to `S_OK` (0) or `S_FALSE` (1), returning every
other code as the typed error — while `SetRate` and `SetTimeFormat` treat
only `S_OK` as success, so `S_FALSE` is an error for them. -/
theorem imediaseeking_setpositions_accepts_s_false (vt : IMediaSeekingVT)
    (current : Int) (currentFlags : Nat) (stop : Int) (stopFlags : Nat)
    (rate : F64) (format : GUID) :
    (IMediaSeeking.SetPositions vt current currentFlags stop stopFlags =
      if u32bits (vt.SetPositions current currentFlags stop stopFlags).1 = 0
          ∨ u32bits (vt.SetPositions current currentFlags stop stopFlags).1 = 1
      then Except.ok ()
      else Except.error
        ⟨u32bits (vt.SetPositions current currentFlags stop stopFlags).1⟩) ∧
    (IMediaSeeking.SetRate vt rate =
      if u32bits (vt.SetRate rate) = 0 then Except.ok ()
      else Except.error ⟨u32bits (vt.SetRate rate)⟩) ∧
    (IMediaSeeking.SetTimeFormat vt format =
      if u32bits (vt.SetTimeFormat format) = 0 then Except.ok ()
      else Except.error ⟨u32bits (vt.SetTimeFormat format)⟩) := by
  refine ⟨?_, ?_, ?_⟩
  · unfold IMediaSeeking.SetPositions
    simp [ERROR.S_OK, ERROR.S_FALSE]
  · unfold IMediaSeeking.SetRate hr_to_winresult
    simp [ERROR.S_OK]
  · unfold IMediaSeeking.SetTimeFormat hr_to_winresult
    simp [ERROR.S_OK]

/-- Claim C4: `HDWP::BeginDeferWindowPos` returns `Ok` with a guard
wrapping the OS-returned handle exactly when the OS pointer is non-null,
and `Err(GetLastError())` exactly when it is null; and
`IFileSaveDialog::SetSaveAsItem` returns `Ok(())` exactly when the
entry's `HRESULT` is the success code, `Err` of the typed code
otherwise. -/
theorem begindeferwindowpos_setsaveasitem_translate (ffi : UserFfi)
    (num_windows : Nat) (vt : IFileSaveDialogVT) (dlg : IFileSaveDialog)
    (psi : Nat) :
    (HDWP.BeginDeferWindowPos ffi num_windows =
      if ffi.BeginDeferWindowPos num_windows = 0 then
        Except.error ffi.GetLastError
      else Except.ok ⟨⟨ffi.BeginDeferWindowPos num_windows⟩⟩) ∧
    (IFileSaveDialog.SetSaveAsItem vt dlg psi =
      if vt.SetSaveAsItem dlg.ptr psi = 0 then Except.ok ()
      else Except.error ⟨vt.SetSaveAsItem dlg.ptr psi⟩) :=
  ⟨rfl, rfl⟩

/-- Claim C5 counterexample: a guard whose handle was replaced with
`INVALID` (as a failed `DeferWindowPos` leaves it) makes no
`EndDeferWindowPos` call on destruction, so destruction does not always
trigger the release call on the wrapped handle. -/
theorem hdwpguard_drop_invalid_skips_cleanup :
    HdwpGuard.drop ⟨HDWP.INVALID⟩ = [] ∧
    HdwpGuard.drop ⟨HDWP.INVALID⟩ ≠
      [OSCall.EndDeferWindowPos HDWP.INVALID] := by
  refine ⟨rfl, ?_⟩ ; decide

/-- Claim C5 as amended: destruction of an `HdwpGuard` calls
`EndDeferWindowPos` on the wrapped `HDWP` handle unless the handle was
replaced with `INVALID` (which a failed `DeferWindowPos` does precisely
to suppress that call), and destruction of an `IMediaSeeking` or
`IFileSaveDialog` value calls `IUnknown::Release` on the wrapped COM
pointer. -/
theorem raii_drop_release_calls (g : HdwpGuard) (m : IMediaSeeking)
    (f : IFileSaveDialog) :
    (HdwpGuard.drop g =
      if g.handle = HDWP.INVALID then []
      else [OSCall.EndDeferWindowPos g.handle]) ∧
    (IMediaSeeking.drop m = [OSCall.Release m.ppvt]) ∧
    (IFileSaveDialog.drop f = [OSCall.Release f.ptr]) :=
  ⟨rfl, rfl, rfl⟩

/-- Claim C6: the shell capability constants mirror the drop-effect
values — `SFGAO::CANCOPY = DROPEFFECT::COPY = 1`,
`SFGAO::CANMOVE = DROPEFFECT::MOVE = 2`,
`SFGAO::CANLINK = DROPEFFECT::LINK = 4` — and
`SFGAO::CAPABILITYMASK = 0x177` is the bitwise OR of `CANCOPY`,
`CANMOVE`, `CANLINK`, `CANRENAME`, `CANDELETE`, `HASPROPSHEET` and
`DROPTARGET`. -/
theorem sfgao_mirrors_dropeffect :
    SFGAO.CANCOPY = DROPEFFECT.COPY ∧ DROPEFFECT.COPY = 1 ∧
    SFGAO.CANMOVE = DROPEFFECT.MOVE ∧ DROPEFFECT.MOVE = 2 ∧
    SFGAO.CANLINK = DROPEFFECT.LINK ∧ DROPEFFECT.LINK = 4 ∧
    SFGAO.CAPABILITYMASK = 0x177 ∧
    SFGAO.CAPABILITYMASK =
      (SFGAO.CANCOPY ||| SFGAO.CANMOVE ||| SFGAO.CANLINK |||
       SFGAO.CANRENAME ||| SFGAO.CANDELETE ||| SFGAO.HASPROPSHEET |||
       SFGAO.DROPTARGET) := by
  decide

/-- Claim C7: every named `FOS` constant, from `OVERWRITEPROMPT` through
`SUPPORTSTREAMABLEITEMS`, has exactly one bit set, and the constants are
pairwise distinct with pairwise-zero bitwise AND (so OR-combinations are
unambiguous). -/
theorem fos_flags_distinct_single_bit :
    FOS.all.Nodup ∧
    FOS.all.Pairwise (fun a b => a &&& b = 0) ∧
    ∀ c ∈ FOS.all, ∃ k ∈ List.range 32, c = 2 ^ k := by
  decide

/-- Claim C8: `HDWP::DeferWindowPos` replaces the stored handle on every
call — with the OS-returned pointer and result `Ok(())` when that pointer
is non-null, and with `INVALID` and result `Err(GetLastError())` when it
is null; a guard left holding `INVALID` then makes no `EndDeferWindowPos`
call on destruction. -/
theorem deferwindowpos_updates_handle (ffi : UserFfi) (self : HDWP)
    (hwnd hwnd_insert_after : Nat) (top_left : POINT) (sz : SIZE)
    (flags : Nat) :
    (HDWP.DeferWindowPos ffi self hwnd hwnd_insert_after top_left sz
        flags =
      if ffi.DeferWindowPos self.ptr hwnd hwnd_insert_after top_left.x
          top_left.y sz.cx sz.cy flags = 0
      then (HDWP.INVALID, Except.error ffi.GetLastError)
      else (⟨ffi.DeferWindowPos self.ptr hwnd hwnd_insert_after top_left.x
          top_left.y sz.cx sz.cy flags⟩, Except.ok ())) ∧
    HdwpGuard.drop ⟨HDWP.INVALID⟩ = [] :=
  ⟨rfl, rfl⟩

/-- Claim C9: `RadioButtonOpts::define_ctrl_id` replaces a zero `ctrl_id`
with the auto-generated ID, keeps a non-zero `ctrl_id`, and leaves
`text`, `pos`, `button_style`, `window_style` and `ex_window_style`
unchanged; `RadioButton::ctrl_id` then returns exactly the ID stored at
construction, for both the `Wnd` and the `Dlg` variants. -/
theorem radiobutton_ctrl_id_define (auto : Nat)
    (opts : RadioButtonOpts) (id : Nat) :
    (RadioButtonOpts.define_ctrl_id auto opts =
      if opts.ctrl_id = 0 then { opts with ctrl_id := auto } else opts) ∧
    ((RadioButtonOpts.define_ctrl_id auto opts).text = opts.text) ∧
    ((RadioButtonOpts.define_ctrl_id auto opts).pos = opts.pos) ∧
    ((RadioButtonOpts.define_ctrl_id auto opts).button_style =
      opts.button_style) ∧
    ((RadioButtonOpts.define_ctrl_id auto opts).window_style =
      opts.window_style) ∧
    ((RadioButtonOpts.define_ctrl_id auto opts).ex_window_style =
      opts.ex_window_style) ∧
    ((RadioButton.new auto opts).ctrl_id =
      if opts.ctrl_id = 0 then auto else opts.ctrl_id) ∧
    ((RadioButton.new_dlg id).ctrl_id = id) := by
  by_cases h : opts.ctrl_id = 0 <;>
    simp [RadioButtonOpts.define_ctrl_id, RadioButton.new,
      RadioButton.new_dlg, RadioButton.ctrl_id, h]

/-- Claim C10: every `DialogMain` built by `DialogMain::new` has the
default message handlers installed — a `WM_CLOSE` message causes
`DestroyWindow` on the dialog's window and a `WM_NCDESTROY` message
causes `PostQuitMessage(0)` — and, whenever every OS step succeeds,
`run_main` with `cmd_show = None` shows the window with `SW::SHOW`. -/
theorem dialogmain_default_handlers_and_show (dialog_id : Int)
    (icon_id accel_table_id : Option Int) (os : GuiOs) (hwnd hinst : Nat)
    (h1 : os.create_dialog_param = Except.ok hwnd)
    (h2 : os.parent_hinstance = Except.ok hinst)
    (h3 : accel_table_id.elim True
      (fun id => ∃ a, os.LoadAccelerators hinst id = Except.ok a))
    (h4 : icon_id.elim True
      (fun id => (∃ i, os.LoadImageIcon hinst id 16 16 = Except.ok i) ∧
        (∃ i, os.LoadImageIcon hinst id 32 32 = Except.ok i))) :
    ((DialogMain.new dialog_id icon_id accel_table_id).handle_wm_close
        hwnd = [GuiAction.DestroyWindow hwnd]) ∧
    ((DialogMain.new dialog_id icon_id
        accel_table_id).handle_wm_nc_destroy hwnd =
      [GuiAction.PostQuitMessage 0]) ∧
    GuiAction.ShowWindow hwnd SW.SHOW ∈
      ((DialogMain.new dialog_id icon_id accel_table_id).run_main os
        none).1 := by
  refine ⟨?_, ?_, ?_⟩
  · simp [DialogMain.new, DialogMain.default_message_handlers,
      DialogMain.handle_wm_close, MsgEvents.empty, MsgEvents.wm_close,
      MsgEvents.wm_nc_destroy]
  · simp [DialogMain.new, DialogMain.default_message_handlers,
      DialogMain.handle_wm_nc_destroy, MsgEvents.empty,
      MsgEvents.wm_close, MsgEvents.wm_nc_destroy]
  · unfold DialogMain.run_main DialogMain.set_icon_if_any
    cases accel_table_id with
    | none =>
      cases icon_id with
      | none =>
        simp [h1, h2, DialogMain.new, DialogMain.default_message_handlers]
      | some iid =>
        obtain ⟨⟨i16, h16⟩, ⟨i32, h32⟩⟩ := h4
        simp [h1, h2, h16, h32, DialogMain.new,
          DialogMain.default_message_handlers]
    | some aid =>
      obtain ⟨a, ha⟩ := h3
      cases icon_id with
      | none =>
        simp [h1, h2, ha, Except.map, DialogMain.new,
          DialogMain.default_message_handlers]
      | some iid =>
        obtain ⟨⟨i16, h16⟩, ⟨i32, h32⟩⟩ := h4
        simp [h1, h2, ha, h16, h32, Except.map, DialogMain.new,
          DialogMain.default_message_handlers]

/-- Witness for C10: the concrete oracle `guiOsSample` succeeds at every
step, and the dialog built from resource IDs `100`/`5`/`6` destroys its
window on `WM_CLOSE`, posts quit on `WM_NCDESTROY`, and shows its window
with `SW::SHOW` when `run_main` is given no show command. -/
theorem dialogmain_default_handlers_and_show_witness :
    ((DialogMain.new 100 (some 5) (some 6)).handle_wm_close 42 =
      [GuiAction.DestroyWindow 42]) ∧
    ((DialogMain.new 100 (some 5) (some 6)).handle_wm_nc_destroy 42 =
      [GuiAction.PostQuitMessage 0]) ∧
    GuiAction.ShowWindow 42 SW.SHOW ∈
      ((DialogMain.new 100 (some 5) (some 6)).run_main guiOsSample
        none).1 :=
  dialogmain_default_handlers_and_show 100 (some 5) (some 6) guiOsSample
    42 7 rfl rfl ⟨1, rfl⟩ ⟨⟨2, rfl⟩, ⟨2, rfl⟩⟩
